import Mathlib

/-!
Shallow embedding of the "keep up with the music" server
(src/spotify_api.js, with src/server.js as an older variant of the same
routes).  Pure state is made explicit:

* the express session object becomes the `Session` structure;
* the two disk snapshot files become `CacheFile` / `TokenFile` values,
  threaded in and out of the functions that read or write them;
* external effects awaited by the handlers (the provider token exchange,
  the provider artist fetches, the argon2 hash/verify primitives, the
  sha-256 user-agent hash) become explicit parameters holding their
  outcome, so every handler is a total computable function;
* JavaScript truthiness on the optional fields the code tests with
  `if (x)` is modelled by `jsTruthyStr` / `jsTruthyInt` (absent, the
  empty string and the number 0 are falsy).

Times are `Int` milliseconds since the epoch, as produced by
`Date.now()`.
-/

namespace KeepUpMusic

/-- JavaScript truthiness of an optional string field: `undefined`,
`null` and `""` are falsy, every other string is truthy. -/
def jsTruthyStr : Option String → Bool
  | none => false
  | some s => s ≠ ""

/-- JavaScript truthiness of an optional number field: `undefined`,
`null` and `0` are falsy. -/
def jsTruthyInt : Option Int → Bool
  | none => false
  | some n => n ≠ 0

/-- The whitespace class of the JavaScript string methods (the
characters relevant here; `trim` strips these from both ends). -/
def isJsWhitespace (c : Char) : Bool :=
  c = ' ' ∨ c = '\t' ∨ c = '\n' ∨ c = '\r' ∨ c = '\x0b' ∨ c = '\x0c'

/-- The JavaScript `String.prototype.trim`: strip leading and trailing
whitespace. -/
def jsTrim (s : String) : String :=
  ⟨((s.data.dropWhile isJsWhitespace).reverse.dropWhile isJsWhitespace).reverse⟩

/-- The JavaScript `String.prototype.toLowerCase` (on the ASCII
alphabet the handlers deal in). -/
def jsToLowerCase (s : String) : String :=
  ⟨s.data.map Char.toLower⟩

/-- An artist record as formatted by `getTopArtists`
(src/spotify_api.js:613-621). -/
structure Artist where
  id : String
  name : String
  genres : List String
  popularity : Int
  followers : Int
  images : List String
  spotify_url : String
deriving Repr, DecidableEq

/-- The local-account user stored in `req.session.user`
(src/spotify_api.js:1028-1031, 1061-1064). -/
structure SessionUser where
  id : Int
  username : String
deriving Repr, DecidableEq

/-- The express session object: the fields the server reads or writes
(`user`, `spotifyToken`, `refreshToken`, `tokenExpiry`, `oauthState`,
`ua`).  `none` models an absent (`undefined` / deleted) field. -/
structure Session where
  user : Option SessionUser
  spotifyToken : Option String
  refreshToken : Option String
  tokenExpiry : Option Int
  oauthState : Option String
  ua : Option String
deriving Repr, DecidableEq

/-- A session with no fields set. -/
def emptySession : Session :=
  { user := none, spotifyToken := none, refreshToken := none
    tokenExpiry := none, oauthState := none, ua := none }

/-- An HTTP response as the handlers produce it: a JSON body (modelled
as a status code plus the list of key/value pairs passed to
`res.json`) or a redirect. -/
inductive HttpResponse where
  | json (status : Nat) (body : List (String × String))
  | redirect (location : String)
deriving Repr, DecidableEq

/-! ## Disk cache store (src/spotify_api.js:338-380) -/

/-- The on-disk artist snapshot file `artists.json`: missing, corrupt
(unparseable), or a parsed object whose `artists` / `timestamp` fields
may themselves be absent. -/
inductive CacheFile where
  | missing
  | corrupt
  | stored (artists : Option (List Artist)) (timestamp : Option Int)
deriving Repr, DecidableEq

/-- What `readCacheFromDisk` hands back to its caller. -/
structure CacheRead where
  artists : Option (List Artist)
  timestamp : Option Int
deriving Repr, DecidableEq

/-- `readCacheFromDisk` (src/spotify_api.js:338-351): a missing or
corrupt file degrades to `{ artists: null, timestamp: null }`. -/
def readCacheFromDisk : CacheFile → CacheRead
  | .missing => ⟨none, none⟩
  | .corrupt => ⟨none, none⟩
  | .stored a t => ⟨a, t⟩

/-- `isCacheValid` (src/spotify_api.js:368-375), with the TTL constant
`CACHE_DURATION` and the current time as parameters.  The JS guard is
`if (!cache.artists || !cache.timestamp) return false`: an array is
always truthy (even `[]`), while a `0` timestamp is falsy, hence the
`ts = 0` branch. -/
def isCacheValid (now ttl : Int) (f : CacheFile) : Bool :=
  match readCacheFromDisk f with
  | ⟨some _, some ts⟩ => if ts = 0 then false else now - ts < ttl
  | _ => false

/-- `getCachedArtists` (src/spotify_api.js:377-380): `cache.artists ||
null` is the `artists` field itself, an array (even empty) being
truthy. -/
def getCachedArtists (f : CacheFile) : Option (List Artist) :=
  (readCacheFromDisk f).artists

/-- The hard-coded `CACHE_DURATION` constant (src/spotify_api.js:245):
12 hours in milliseconds. -/
def CACHE_DURATION : Int := 12 * 60 * 60 * 1000

/-! ## Token cache (src/spotify_api.js:386-418) -/

/-- The on-disk token snapshot file `token.json`. -/
inductive TokenFile where
  | missing
  | corrupt
  | stored (token : String) (expiry : Int)
deriving Repr, DecidableEq

/-- What `readTokenFromDisk` hands back. -/
structure TokenRead where
  token : Option String
  expiry : Option Int
deriving Repr, DecidableEq

/-- `readTokenFromDisk` (src/spotify_api.js:386-403): returns the
parsed snapshot only when `tokenData.expiry && Date.now() <
tokenData.expiry` (a `0` expiry is falsy), else degrades to
`{ token: null, expiry: null }`. -/
def readTokenFromDisk (now : Int) : TokenFile → TokenRead
  | .missing => ⟨none, none⟩
  | .corrupt => ⟨none, none⟩
  | .stored t e => if e ≠ 0 ∧ now < e then ⟨some t, some e⟩ else ⟨none, none⟩

/-- Result of `getSpotifyAccessToken`: the value resolved or the error
rejected with, the token file after the call, and how many
client-credentials exchanges were performed. -/
structure TokenResult where
  result : Except String String
  file : TokenFile
  exchanges : Nat
deriving Repr

/-- `getSpotifyAccessToken` (src/spotify_api.js:424-473).  `hasCreds`
is whether `CLIENT_ID`/`CLIENT_SECRET` are configured; `exchange` is
the outcome of the client-credentials POST, `some (token, expires_in)`
on HTTP 200 and `none` on any failure.  On a fresh exchange the code
calls `writeTokenToDisk(access_token, expires_in)` — persisting
`expiry = Date.now() + expires_in * 1000` — before resolving. -/
def getSpotifyAccessToken (now : Int) (file : TokenFile) (hasCreds : Bool)
    (exchange : Option (String × Int)) : TokenResult :=
  let cached := readTokenFromDisk now file
  match cached with
  | ⟨some t, some e⟩ =>
      if t ≠ "" ∧ e ≠ 0 ∧ now < e then
        ⟨.ok t, file, 0⟩
      else if !hasCreds then
        ⟨.error "Spotify credentials not configured. Check your .env file.", file, 0⟩
      else
        match exchange with
        | some (tok, expiresIn) => ⟨.ok tok, .stored tok (now + expiresIn * 1000), 1⟩
        | none => ⟨.error "Failed to get token", file, 1⟩
  | _ =>
      if !hasCreds then
        ⟨.error "Spotify credentials not configured. Check your .env file.", file, 0⟩
      else
        match exchange with
        | some (tok, expiresIn) => ⟨.ok tok, .stored tok (now + expiresIn * 1000), 1⟩
        | none => ⟨.error "Failed to get token", file, 1⟩

/-! ## Cache refresh and the artists route (src/spotify_api.js:647-747)

`refreshCache` awaits `getSpotifyAccessToken` and `getTopArtists`; the
outcomes of those awaited calls are passed in as `tokenRes` (the value
the token call resolved or rejected with) and `fetchRes` (`none` when
`getTopArtists` rejected, `some l` when it resolved with the list `l`).
-/

/-- `refreshCache` (src/spotify_api.js:647-664).  On success the cache
file is wholly replaced by `writeCacheToDisk(artists)` with the current
time as timestamp; on any failure (token rejection, fetch rejection, or
an empty artist list, which the code turns into a throw) the `catch`
returns `getCachedArtists() || []` and the file is untouched.  The
function itself never rejects. -/
def refreshCache (f : CacheFile) (now : Int) (tokenRes : Except String String)
    (fetchRes : Option (List Artist)) : List Artist × CacheFile :=
  match tokenRes with
  | .error _ => ((getCachedArtists f).getD [], f)
  | .ok _ =>
      match fetchRes with
      | none => ((getCachedArtists f).getD [], f)
      | some artists =>
          if artists.isEmpty then ((getCachedArtists f).getD [], f)
          else (artists, .stored (some artists) (some now))

/-- The JSON body of a successful `GET /api/artists` response
(src/spotify_api.js:731-738), and the 500 branch of its `catch`. -/
inductive ArtistsOutcome where
  | ok (artists : List Artist) (count : Nat) (source : String) (cached : Bool)
  | serverError
deriving Repr, DecidableEq

/-- The global-chart tail of the `GET /api/artists` handler
(src/spotify_api.js:721-738): serve the disk cache when valid, else
synchronously refresh; `cached` re-evaluates `isCacheValid()` after the
possible refresh. -/
def globalArtists (s : Session) (f : CacheFile) (now ttl : Int)
    (tokenRes : Except String String) (globalFetch : Option (List Artist)) :
    Session × CacheFile × ArtistsOutcome :=
  if isCacheValid now ttl f then
    let artists := (getCachedArtists f).getD []
    (s, f, .ok artists artists.length "global" (isCacheValid now ttl f))
  else
    let r := refreshCache f now tokenRes globalFetch
    (s, r.2, .ok r.1 r.1.length "global" (isCacheValid now ttl r.2))

/-- The `GET /api/artists` handler (src/spotify_api.js:700-747).
`userFetch` is the outcome of `getUserTopArtists(req.session.spotifyToken)`
(`none` = rejected).  A personal-fetch failure deletes
`req.session.spotifyToken` and falls through to the global chart. -/
def artistsRoute (s : Session) (f : CacheFile) (now ttl : Int)
    (userFetch : Option (List Artist)) (tokenRes : Except String String)
    (globalFetch : Option (List Artist)) : Session × CacheFile × ArtistsOutcome :=
  if jsTruthyStr s.spotifyToken then
    match userFetch with
    | some artists => (s, f, .ok artists artists.length "personal" false)
    | none => globalArtists { s with spotifyToken := none } f now ttl tokenRes globalFetch
  else
    globalArtists s f now ttl tokenRes globalFetch

/-! ## User-agent binding middleware (src/spotify_api.js:205-223, 297-302) -/

/-- The 401 body the UA-mismatch middleware responds with. -/
def uaMismatchResponse : HttpResponse :=
  .json 401 [("error", "SESSION_INVALID"), ("message", "Session expired or invalidated")]

/-- The session middleware registered before every route
(src/spotify_api.js:205-223): when the session carries a (truthy)
stored `ua` hash that differs from `hashUA(req)` — the sha-256 hex
digest of the `User-Agent` header, modelled by the abstract `hashUA`
parameter — the session is destroyed (`none`), the cookie cleared and a
401 returned without calling `next()`; otherwise the rest of the
pipeline (`route`) runs.  Parametricity over `route` expresses that no
route handler runs on the mismatch path. -/
def uaMiddleware (hashUA : String → String) (userAgent : String) (s : Session)
    (route : Session → Session × HttpResponse) : Option Session × HttpResponse :=
  match s.ua with
  | some stored =>
      -- `if (req.session.ua)` is a truthiness test, so an empty stored
      -- string skips the comparison entirely.
      if stored ≠ "" ∧ stored ≠ hashUA userAgent then
        (none, uaMismatchResponse)
      else
        let r := route s
        (some r.1, r.2)
  | none =>
      let r := route s
      (some r.1, r.2)

/-! ## Spotify OAuth callback (src/spotify_api.js:847-895) -/

/-- The query string of `GET /auth/spotify/callback`: the destructured
`code`, `state` and `error` parameters, each possibly absent. -/
structure CallbackQuery where
  code : Option String
  state : Option String
  error : Option String
deriving Repr, DecidableEq

/-- The provider token payload a successful code exchange resolves with. -/
structure TokenData where
  access_token : String
  refresh_token : String
  expires_in : Int
deriving Repr, DecidableEq

/-- The `GET /auth/spotify/callback` handler (src/spotify_api.js:847-895).
`exchange` is the outcome of the `fetch` to the provider token endpoint
(`none` when the response is not ok or the fetch rejects), `uaHash` the
value of `hashUA(req)` captured on success.  The state comparison is
the strict `state !== req.session.oauthState` (so two absent values
compare equal); `delete req.session.oauthState` runs only after that
check passes. -/
def spotifyCallback (q : CallbackQuery) (s : Session) (exchange : Option TokenData)
    (now : Int) (uaHash : String) : Session × HttpResponse :=
  if jsTruthyStr q.error then
    (s, .redirect "/?error=spotify_auth_failed")
  else if q.state ≠ s.oauthState then
    (s, .redirect "/?error=invalid_state")
  else
    let s1 : Session := { s with oauthState := none }
    match exchange with
    | none => (s1, .redirect "/?error=token_exchange_failed")
    | some td =>
        ({ s1 with
            spotifyToken := some td.access_token
            refreshToken := some td.refresh_token
            tokenExpiry := some (now + td.expires_in * 1000)
            ua := some uaHash },
         .redirect "/?auth=success")

/-! ## Local accounts (src/spotify_api.js:922-1088) -/

/-- A row of the sqlite `users` table (src/spotify_api.js:922-930). -/
structure UserRow where
  id : Int
  username : String
  password_hash : String
  signup_ip : String
deriving Repr, DecidableEq

/-- The prepared statement `countUsersByIP`
(src/spotify_api.js:957-959). -/
def countUsersByIP (db : List UserRow) (ip : String) : Nat :=
  (db.filter fun r => r.signup_ip = ip).length

/-- The prepared statement `getUserByUsername`
(src/spotify_api.js:953-955): the first row with the given username
(usernames are UNIQUE, so at most one exists). -/
def getUserByUsername (db : List UserRow) (uname : String) : Option UserRow :=
  db.find? fun r => r.username = uname

/-- The `POST /api/auth/register` handler (src/spotify_api.js:1002-1041).
`argonHash` abstracts `argon2.hash`; `username`/`password` are `none`
when the body field is absent or not a string.  The length checks run
on the raw input; `toLowerCase().trim()` is applied only afterwards.
The UNIQUE constraint on `users.username` makes `createUser.run` throw
on a duplicate, which the `catch` turns into a 409 with no row
created. -/
def registerRoute (argonHash : String → String) (db : List UserRow)
    (username password : Option String) (ip uaHash : String) (s : Session)
    (nextId : Int) : List UserRow × Session × HttpResponse :=
  match username, password with
  | some u, some p =>
      if u.length < 3 ∨ p.length < 8 then
        (db, s, .json 400 [("error", "Invalid username or password")])
      else
        let uname := jsTrim (jsToLowerCase u)
        if countUsersByIP db ip ≥ 3 then
          (db, s, .json 403 [("error", "Account limit reached for this IP")])
        else if db.any (fun r => r.username = uname) then
          (db, s, .json 409 [("error", "Username already exists")])
        else
          (db ++ [⟨nextId, uname, argonHash p, ip⟩],
           { s with user := some ⟨nextId, uname⟩, ua := some uaHash },
           .json 201 [("success", "true"), ("message", "Account created successfully")])
  | _, _ => (db, s, .json 400 [("error", "Invalid username or password")])

/-- The `POST /api/auth/login` handler (src/spotify_api.js:1046-1070).
`verify` abstracts `argon2.verify hash password`. -/
def loginRoute (verify : String → String → Bool) (db : List UserRow)
    (username password : String) (s : Session) (uaHash : String) :
    Session × HttpResponse :=
  let uname := jsTrim (jsToLowerCase username)
  match getUserByUsername db uname with
  | none => (s, .json 401 [("error", "Invalid credentials")])
  | some user =>
      if verify user.password_hash password then
        ({ s with user := some ⟨user.id, user.username⟩, ua := some uaHash },
         .json 200 [("success", "true"), ("message", "Signed in successfully")])
      else
        (s, .json 401 [("error", "Invalid credentials")])

/-- The `POST /api/auth/logout` handler (src/spotify_api.js:1085-1088):
`delete req.session.user` and nothing else. -/
def logoutRoute (s : Session) : Session × HttpResponse :=
  ({ s with user := none }, .json 200 [("success", "true")])

/-- The `POST /api/auth/spotify/logout` handler
(src/spotify_api.js:1076-1081): deletes only the three provider-OAuth
fields. -/
def spotifyLogoutRoute (s : Session) : Session × HttpResponse :=
  ({ s with spotifyToken := none, refreshToken := none, tokenExpiry := none },
   .json 200 [("success", "true")])

/-! ## Comments (src/spotify_api.js:935-944, 1101-1125) -/

/-- A row of the sqlite `comments` table. -/
structure CommentRow where
  id : Int
  user_id : Int
  title : String
  body : String
deriving Repr, DecidableEq

/-- The prepared statement `countCommentsByUser`
(src/spotify_api.js:974-976). -/
def countCommentsByUser (db : List CommentRow) (uid : Int) : Nat :=
  (db.filter fun c => c.user_id = uid).length

/-- Tag-stripping core of the sanitizer model: characters between `<`
and the next `>` (the markup) are dropped, everything else kept.  The
boolean tracks whether we are inside a tag. -/
def stripTagsAux : List Char → Bool → List Char
  | [], _ => []
  | c :: cs, true => if c = '>' then stripTagsAux cs false else stripTagsAux cs true
  | c :: cs, false => if c = '<' then stripTagsAux cs true else c :: stripTagsAux cs false

/-- Modelled from the spec: the comment route sanitizes free text with
the external `sanitize-html` library, called with `allowedTags: []` and
`allowedAttributes: \x7b\x7d` (src/spotify_api.js:1120-1121), which the
spec describes as "strip all markup".  The library is not part of this
repository; it is modelled as removing every tag while keeping the text
between tags. -/
def sanitizeHtml (s : String) : String :=
  ⟨stripTagsAux s.data false⟩

/-- The `POST /api/comments` handler body, after `requireAuth` has
admitted the request (src/spotify_api.js:1101-1125).  `uid` is
`req.session.user.id`; `title`/`body` are `none` when absent or not a
string.  Length and emptiness are checked on the raw input; the stored
values are the sanitized trimmed fields. -/
def postCommentRoute (db : List CommentRow) (uid : Int)
    (title body : Option String) (nextId : Int) :
    List CommentRow × HttpResponse :=
  match title, body with
  | some t, some b =>
      if t.length > 128 ∨ b.length > 4000 ∨ jsTrim t = "" ∨ jsTrim b = "" then
        (db, .json 400 [("error", "Invalid comment length")])
      else if countCommentsByUser db uid ≥ 5 then
        (db, .json 403 [("error", "Comment limit reached")])
      else
        (db ++ [⟨nextId, uid, sanitizeHtml (jsTrim t), sanitizeHtml (jsTrim b)⟩],
         .json 201 [("success", "true")])
  | _, _ => (db, .json 400 [("error", "Invalid comment length")])

/-! ## Theorems -/

/-- C1: whenever the `state` query parameter differs from the session's
stored pending `oauthState` (including when none is stored), the
callback handler leaves `spotifyToken`, `refreshToken` and
`tokenExpiry` untouched, for every `code` and every outcome of the
token exchange. -/
theorem callback_state_mismatch_stores_no_token
    (q : CallbackQuery) (s : Session) (exchange : Option TokenData)
    (now : Int) (uaHash : String) (hmis : q.state ≠ s.oauthState) :
    (spotifyCallback q s exchange now uaHash).1.spotifyToken = s.spotifyToken ∧
    (spotifyCallback q s exchange now uaHash).1.refreshToken = s.refreshToken ∧
    (spotifyCallback q s exchange now uaHash).1.tokenExpiry = s.tokenExpiry := by
  unfold spotifyCallback
  by_cases he : jsTruthyStr q.error
  · simp [he]
  · simp [he, hmis]

/-- Witness for C1: a session holding a pending state `"a"` and a
token `"t0"`, a callback with mismatching state `"b"`, a valid-looking
code and a successful exchange: the stored token is unchanged. -/
theorem callback_state_mismatch_stores_no_token_witness :
    (spotifyCallback ⟨some "c", some "b", none⟩
        { emptySession with oauthState := some "a", spotifyToken := some "t0" }
        (some ⟨"at", "rt", 3600⟩) 0 "u").1.spotifyToken = some "t0" :=
  (callback_state_mismatch_stores_no_token _ _ _ _ _ (by decide)).1

/-- C2 counterexample: on a session holding pending state `"a"`, the
callback does NOT discard the stored state on the mismatch outcome
(state `"b"`), nor on the provider-error outcome — `delete
req.session.oauthState` sits after both early returns
(src/spotify_api.js:850-861). -/
theorem callback_failure_retains_pending_state :
    ((spotifyCallback ⟨some "c", some "b", none⟩
        { emptySession with oauthState := some "a" } none 0 "u").1.oauthState
      = some "a") ∧
    ((spotifyCallback ⟨some "c", none, some "access_denied"⟩
        { emptySession with oauthState := some "a" } none 0 "u").1.oauthState
      = some "a") := by
  decide

/-- C2 amended: on a session holding a pending CSRF state, the stored
state is discarded exactly when the handler passes the state check —
no truthy provider `error` and a `state` parameter equal to the stored
value; on the provider-error and mismatch outcomes the pending state
is retained. -/
theorem callback_discards_state_iff_validated (q : CallbackQuery) (s : Session)
    (exchange : Option TokenData) (now : Int) (uaHash : String) (st : String)
    (hpend : s.oauthState = some st) :
    ((spotifyCallback q s exchange now uaHash).1.oauthState = none ↔
      (jsTruthyStr q.error = false ∧ q.state = some st)) := by
  unfold spotifyCallback
  by_cases he : jsTruthyStr q.error
  · simp [he, hpend]
  · by_cases hst : q.state = s.oauthState
    · cases exchange <;> simp [he, hst, hpend]
    · rw [hpend] at hst
      simp [he, hpend, hst]

/-- Witness for C2's amended theorem: a matching state with a failed
exchange still discards the pending state. -/
theorem callback_discards_state_iff_validated_witness :
    ((spotifyCallback ⟨some "c", some "a", none⟩
        { emptySession with oauthState := some "a" } none 0 "u").1.oauthState = none ↔
      (jsTruthyStr (none : Option String) = false ∧
        (some "a" : Option String) = some "a")) :=
  callback_discards_state_iff_validated ⟨some "c", some "a", none⟩
    { emptySession with oauthState := some "a" } none 0 "u" "a" rfl

/-- C3: a request whose session stores a user-agent hash — a value of
the abstract sha-256 hex `hashUA`, hence nonempty — different from the
hash of the request's current `User-Agent` is answered 401
`SESSION_INVALID` with the session destroyed (`none`), and this holds
for EVERY continuation `route`, i.e. no route handler influences the
outcome: none runs. -/
theorem ua_mismatch_destroys_session (hashUA : String → String)
    (userAgent : String) (s : Session)
    (route : Session → Session × HttpResponse) (h : String)
    (hstored : s.ua = some h) (hne : h ≠ "")
    (hmis : h ≠ hashUA userAgent) :
    uaMiddleware hashUA userAgent s route = (none, uaMismatchResponse) := by
  unfold uaMiddleware
  rw [hstored]
  simp [hne, hmis]

/-- Witness for C3: stored hash `"aa"`, current hash `"bb"`, and a
route that would have answered 200. -/
theorem ua_mismatch_destroys_session_witness :
    uaMiddleware (fun _ => "bb") "Mozilla" { emptySession with ua := some "aa" }
        (fun s => (s, .json 200 [("ok", "true")]))
      = (none, uaMismatchResponse) :=
  ua_mismatch_destroys_session _ _ _ _ "aa" rfl (by decide) (by decide)

/-- C9: on a session holding both a local user and the three provider
OAuth fields, `POST /api/auth/logout` clears only `user`; the provider
fields are unchanged. -/
theorem logout_preserves_provider_fields (s : Session) (u : SessionUser)
    (tk rt : String) (te : Int)
    (_hu : s.user = some u) (ht : s.spotifyToken = some tk)
    (hr : s.refreshToken = some rt) (he : s.tokenExpiry = some te) :
    (logoutRoute s).1.user = none ∧
    (logoutRoute s).1.spotifyToken = some tk ∧
    (logoutRoute s).1.refreshToken = some rt ∧
    (logoutRoute s).1.tokenExpiry = some te := by
  simp [logoutRoute, ht, hr, he]

/-- Witness for C9. -/
theorem logout_preserves_provider_fields_witness :
    (logoutRoute { user := some ⟨1, "alice"⟩, spotifyToken := some "tk"
                   refreshToken := some "rt", tokenExpiry := some 99
                   oauthState := none, ua := some "h" }).1.user = none ∧
    (logoutRoute { user := some ⟨1, "alice"⟩, spotifyToken := some "tk"
                   refreshToken := some "rt", tokenExpiry := some 99
                   oauthState := none, ua := some "h" }).1.spotifyToken = some "tk" :=
  have h := logout_preserves_provider_fields
    { user := some ⟨1, "alice"⟩, spotifyToken := some "tk"
      refreshToken := some "rt", tokenExpiry := some 99
      oauthState := none, ua := some "h" } ⟨1, "alice"⟩ "tk" "rt" 99 rfl rfl rfl rfl
  ⟨h.1, h.2.1⟩

/-- A concrete artist record, used by witnesses and counterexamples. -/
def sampleArtist : Artist :=
  ⟨"1Xyo4u8uXC1ZmMpatF05PJ", "The Weeknd", ["pop"], 95, 1000000, [],
   "https://open.spotify.com/artist/1Xyo4u8uXC1ZmMpatF05PJ"⟩

/-- C5 counterexample: a snapshot holding a non-empty artist list and
the timestamp `0` is reported invalid by `isCacheValid` even though
`now - timestamp < TTL` (here `5 - 0 < 10`): the JS guard
`!cache.timestamp` treats the number `0` as absent. -/
theorem isCacheValid_zero_timestamp_counterexample :
    isCacheValid 5 10 (.stored (some [sampleArtist]) (some 0)) = false ∧
    ((5 : Int) - 0 < 10) := by
  decide

/-- C5 amended: for a snapshot holding a non-empty artist list and a
NONZERO timestamp, and for every TTL and current time, `isCacheValid`
is true iff `now - timestamp < TTL`; in particular at
`now - timestamp = TTL` it is false.  (A zero timestamp is falsy in JS
and makes the snapshot unconditionally invalid.) -/
theorem isCacheValid_iff_within_ttl (now ttl ts : Int) (arts : List Artist)
    (_hne : arts ≠ []) (hts : ts ≠ 0) :
    (isCacheValid now ttl (.stored (some arts) (some ts)) = true ↔
      now - ts < ttl) ∧
    (now - ts = ttl → isCacheValid now ttl (.stored (some arts) (some ts)) = false) := by
  constructor
  · simp [isCacheValid, readCacheFromDisk, hts]
  · intro hb
    simp [isCacheValid, readCacheFromDisk, hts, hb]

/-- Witness for C5's amended theorem: one artist, timestamp 1, now 5,
TTL 10 — valid, since `5 - 1 < 10`. -/
theorem isCacheValid_iff_within_ttl_witness :
    isCacheValid 5 10 (.stored (some [sampleArtist]) (some 1)) = true :=
  (isCacheValid_iff_within_ttl 5 10 1 [sampleArtist] (by decide) (by decide)).1.mpr
    (by decide)

/-- C6: a login with an existing username but a failing password check
and a login with a username that matches no row receive responses that
are equal — same status 401 and the same body — so the response does
not reveal whether the username exists. -/
theorem login_no_username_enumeration (verify : String → String → Bool)
    (db : List UserRow) (u1 p1 u2 p2 : String) (s1 s2 : Session)
    (ua1 ua2 : String) (user : UserRow)
    (h1 : getUserByUsername db (jsTrim (jsToLowerCase u1)) = some user)
    (h2 : verify user.password_hash p1 = false)
    (h3 : getUserByUsername db (jsTrim (jsToLowerCase u2)) = none) :
    (loginRoute verify db u1 p1 s1 ua1).2 = (loginRoute verify db u2 p2 s2 ua2).2 ∧
    (loginRoute verify db u1 p1 s1 ua1).2
      = .json 401 [("error", "Invalid credentials")] := by
  simp only [loginRoute]
  rw [h1, h3]
  simp [h2]

/-- Witness for C6: a one-user database, a wrong password for
`"alice"` and the unknown username `"bob"`. -/
theorem login_no_username_enumeration_witness :
    (loginRoute (fun _ _ => false) [⟨1, "alice", "h1", "ip"⟩] "alice" "wrong"
        emptySession "ua").2
      = (loginRoute (fun _ _ => false) [⟨1, "alice", "h1", "ip"⟩] "bob" "pw"
        emptySession "ua").2 :=
  (login_no_username_enumeration (fun _ _ => false) [⟨1, "alice", "h1", "ip"⟩]
    "alice" "wrong" "bob" "pw" emptySession emptySession "ua" "ua"
    ⟨1, "alice", "h1", "ip"⟩ (by decide) rfl (by decide)).1

/-- Appending a row changes a per-IP account count by one exactly when
the row carries that IP. -/
theorem countUsersByIP_append (db : List UserRow) (r : UserRow) (ip : String) :
    countUsersByIP (db ++ [r]) ip
      = countUsersByIP db ip + (if r.signup_ip = ip then 1 else 0) := by
  simp only [countUsersByIP, List.filter_append, List.length_append]
  split_ifs with h <;> simp [List.filter, h]

/-- Appending a row changes a per-user comment count by one exactly
when the row belongs to that user. -/
theorem countCommentsByUser_append (db : List CommentRow) (r : CommentRow) (uid : Int) :
    countCommentsByUser (db ++ [r]) uid
      = countCommentsByUser db uid + (if r.user_id = uid then 1 else 0) := by
  simp only [countCommentsByUser, List.filter_append, List.length_append]
  split_ifs with h <;> simp [List.filter, h]

/-- C7 counterexample: the register handler checks `username.length < 3`
BEFORE `toLowerCase().trim()` (src/spotify_api.js:1006-1015), so the
raw username `" A "` (length 3) passes validation and the row is
created with the stored username `"a"`, which is only 1 character long
after trimming — the claim's "at least 3 characters long after
trimming" fails while the request succeeds with 201. -/
theorem register_stores_undersized_username :
    (registerRoute (fun p => p) [] (some " A ") (some "password1")
        "1.2.3.4" "ua" emptySession 1).1
      = [⟨1, "a", "password1", "1.2.3.4"⟩] ∧
    (registerRoute (fun p => p) [] (some " A ") (some "password1")
        "1.2.3.4" "ua" emptySession 1).2.2
      = .json 201 [("success", "true"), ("message", "Account created successfully")] ∧
    (jsTrim "a").length < 3 := by
  decide

/-- C7 amended: every row created by a successful register request
stores the lowercased, trimmed username of a RAW input at least 3
characters long (the stored trimmed value may be shorter), and at the
moment of creation at most 3 rows (including the new one) share its
signup IP; a valid register request from an IP that already has 3
accounts is rejected with 403 and creates no row. -/
theorem register_amended_spec (argonHash : String → String) (db : List UserRow)
    (u p ip uaHash : String) (s : Session) (nextId : Int) :
    ((registerRoute argonHash db (some u) (some p) ip uaHash s nextId).2.2
        = .json 201 [("success", "true"), ("message", "Account created successfully")] →
      (registerRoute argonHash db (some u) (some p) ip uaHash s nextId).1
          = db ++ [⟨nextId, jsTrim (jsToLowerCase u), argonHash p, ip⟩] ∧
      3 ≤ u.length ∧
      countUsersByIP (registerRoute argonHash db (some u) (some p) ip uaHash s nextId).1 ip
          = countUsersByIP db ip + 1 ∧
      countUsersByIP (registerRoute argonHash db (some u) (some p) ip uaHash s nextId).1 ip
          ≤ 3) ∧
    (3 ≤ u.length → 8 ≤ p.length → countUsersByIP db ip ≥ 3 →
      registerRoute argonHash db (some u) (some p) ip uaHash s nextId
        = (db, s, .json 403 [("error", "Account limit reached for this IP")])) := by
  constructor
  · intro hresp
    by_cases hv : u.length < 3 ∨ p.length < 8
    · simp [registerRoute, hv] at hresp
    · by_cases hcap : countUsersByIP db ip ≥ 3
      · simp [registerRoute, hv, hcap] at hresp
      · by_cases hdup : (db.any fun r => r.username = jsTrim (jsToLowerCase u)) = true
        · simp [registerRoute, hv, hcap, hdup] at hresp
        · have hsucc : (registerRoute argonHash db (some u) (some p) ip uaHash s nextId).1
              = db ++ [⟨nextId, jsTrim (jsToLowerCase u), argonHash p, ip⟩] := by
            simp [registerRoute, hv, hcap, hdup]
          refine ⟨hsucc, by omega, ?_, ?_⟩
          · rw [hsucc, countUsersByIP_append]
            simp
          · rw [hsucc, countUsersByIP_append]
            simp
            omega
  · intro hu hp hcap
    have hv : ¬(u.length < 3 ∨ p.length < 8) := by omega
    simp [registerRoute, hv, hcap]

/-- Witness for C7's amended theorem: the 403 branch on an IP with 3
accounts, and the created row of a valid registration. -/
theorem register_amended_spec_witness :
    registerRoute (fun p => p)
        [⟨1, "u1", "h", "9.9.9.9"⟩, ⟨2, "u2", "h", "9.9.9.9"⟩, ⟨3, "u3", "h", "9.9.9.9"⟩]
        (some "bob") (some "password1") "9.9.9.9" "ua" emptySession 4
      = ([⟨1, "u1", "h", "9.9.9.9"⟩, ⟨2, "u2", "h", "9.9.9.9"⟩, ⟨3, "u3", "h", "9.9.9.9"⟩],
         emptySession, .json 403 [("error", "Account limit reached for this IP")]) ∧
    (registerRoute (fun p => p) [] (some "Carol") (some "password1")
        "8.8.8.8" "ua" emptySession 1).1
      = [] ++ [⟨1, jsTrim (jsToLowerCase "Carol"), "password1", "8.8.8.8"⟩] :=
  ⟨(register_amended_spec (fun p => p)
      [⟨1, "u1", "h", "9.9.9.9"⟩, ⟨2, "u2", "h", "9.9.9.9"⟩, ⟨3, "u3", "h", "9.9.9.9"⟩]
      "bob" "password1" "9.9.9.9" "ua" emptySession 4).2
      (by decide) (by decide) (by decide),
   ((register_amended_spec (fun p => p) [] "Carol" "password1" "8.8.8.8" "ua"
      emptySession 1).1 (by decide)).1⟩

/-- C8 counterexample: the raw title `"<b></b>"` is non-empty after
trim and within the length limit, so the request succeeds with 201 —
but sanitization strips the markup and the STORED title is the empty
string, violating "non-empty after trim, as stored after
sanitization". -/
theorem postComment_stores_empty_title :
    postCommentRoute [] 1 (some "<b></b>") (some "hello") 7
      = ([⟨7, 1, "", "hello"⟩], .json 201 [("success", "true")]) ∧
    jsTrim "<b></b>" ≠ "" := by
  decide

/-- C8 amended: every comment row created by a successful
`POST /api/comments` stores the sanitized trimmed title and body of a
raw title that is non-empty after trim and at most 128 characters and
a raw body non-empty after trim and at most 4000 characters (the
stored sanitized values may be empty), and the owning user holds at
most 5 comments after the insertion. -/
theorem postComment_amended_spec (db : List CommentRow) (uid nextId : Int)
    (t b : String)
    (hresp : (postCommentRoute db uid (some t) (some b) nextId).2
        = .json 201 [("success", "true")]) :
    (postCommentRoute db uid (some t) (some b) nextId).1
        = db ++ [⟨nextId, uid, sanitizeHtml (jsTrim t), sanitizeHtml (jsTrim b)⟩] ∧
    jsTrim t ≠ "" ∧ t.length ≤ 128 ∧ jsTrim b ≠ "" ∧ b.length ≤ 4000 ∧
    countCommentsByUser (postCommentRoute db uid (some t) (some b) nextId).1 uid
        = countCommentsByUser db uid + 1 ∧
    countCommentsByUser (postCommentRoute db uid (some t) (some b) nextId).1 uid
        ≤ 5 := by
  by_cases hv : t.length > 128 ∨ b.length > 4000 ∨ jsTrim t = "" ∨ jsTrim b = ""
  · simp [postCommentRoute, hv] at hresp
  · by_cases hcap : countCommentsByUser db uid ≥ 5
    · simp [postCommentRoute, hv, hcap] at hresp
    · have hv2 := hv
      push_neg at hv2
      obtain ⟨h1, h2, h3, h4⟩ := hv2
      have hsucc : (postCommentRoute db uid (some t) (some b) nextId).1
          = db ++ [⟨nextId, uid, sanitizeHtml (jsTrim t), sanitizeHtml (jsTrim b)⟩] := by
        simp [postCommentRoute, hv, hcap]
      refine ⟨hsucc, h3, by omega, h4, by omega, ?_, ?_⟩
      · rw [hsucc, countCommentsByUser_append]
        simp
      · rw [hsucc, countCommentsByUser_append]
        simp
        omega

/-- Witness for C8's amended theorem: a plain-text comment on an empty
table. -/
theorem postComment_amended_spec_witness :
    (postCommentRoute [] 1 (some "First post") (some "I like this band") 1).1
      = [] ++ [⟨1, 1, sanitizeHtml (jsTrim "First post"),
                sanitizeHtml (jsTrim "I like this band")⟩] :=
  (postComment_amended_spec [] 1 1 "First post" "I like this band" (by decide)).1

/-- C4: with credentials configured and a non-negative clock, (a) when
the persisted snapshot holds a token — a nonempty string, the empty
string being JS-falsy absence of a token — whose recorded expiry is
strictly in the future, that token is returned with no exchange and
the snapshot untouched; (b) otherwise (no snapshot, corrupt snapshot,
expiry not in the future) exactly one client-credentials exchange is
performed, and on its success the new token with its new expiry
`now + expires_in * 1000` is persisted and returned; (c) a token is
returned only if it is the freshly exchanged one or a stored one whose
expiry is still in the future — never one past its recorded expiry. -/
theorem getSpotifyAccessToken_spec (now : Int) (file : TokenFile)
    (exchange : Option (String × Int)) (hnow : 0 ≤ now) :
    (∀ t e, file = .stored t e → t ≠ "" → now < e →
      getSpotifyAccessToken now file true exchange = ⟨.ok t, file, 0⟩) ∧
    ((∀ t e, file = .stored t e → t ≠ "" → now < e → False) →
      (getSpotifyAccessToken now file true exchange).exchanges = 1 ∧
      ∀ tok ei, exchange = some (tok, ei) →
        getSpotifyAccessToken now file true exchange
          = ⟨.ok tok, .stored tok (now + ei * 1000), 1⟩) ∧
    (∀ tok, (getSpotifyAccessToken now file true exchange).result = .ok tok →
      (∃ ei, exchange = some (tok, ei)) ∨ ∃ e, file = .stored tok e ∧ now < e) := by
  refine ⟨?_, ?_, ?_⟩
  · intro t e hf ht he
    subst hf
    have hez : e ≠ 0 := by omega
    simp [getSpotifyAccessToken, readTokenFromDisk, hez, he, ht]
  · intro hnofresh
    cases file with
    | missing =>
        cases exchange with
        | none => exact ⟨rfl, by intro tok ei h; cases h⟩
        | some pr =>
            exact ⟨rfl, by rintro tok ei ⟨rfl⟩; rfl⟩
    | corrupt =>
        cases exchange with
        | none => exact ⟨rfl, by intro tok ei h; cases h⟩
        | some pr =>
            exact ⟨rfl, by rintro tok ei ⟨rfl⟩; rfl⟩
    | stored t e =>
        by_cases hcond : e ≠ 0 ∧ now < e
        · have ht : t = "" := by
            by_contra hte
            exact hnofresh t e rfl hte hcond.2
          subst ht
          cases exchange with
          | none =>
              refine ⟨?_, by intro tok ei h; cases h⟩
              simp [getSpotifyAccessToken, readTokenFromDisk, hcond]
          | some pr =>
              obtain ⟨tok0, ei0⟩ := pr
              refine ⟨?_, ?_⟩
              · simp [getSpotifyAccessToken, readTokenFromDisk, hcond]
              · rintro tok ei ⟨rfl⟩
                simp [getSpotifyAccessToken, readTokenFromDisk, hcond]
        · cases exchange with
          | none =>
              refine ⟨?_, by intro tok ei h; cases h⟩
              simp [getSpotifyAccessToken, readTokenFromDisk, hcond]
          | some pr =>
              obtain ⟨tok0, ei0⟩ := pr
              refine ⟨?_, ?_⟩
              · simp [getSpotifyAccessToken, readTokenFromDisk, hcond]
              · rintro tok ei ⟨rfl⟩
                simp [getSpotifyAccessToken, readTokenFromDisk, hcond]
  · intro tok hres
    cases file with
    | missing =>
        cases exchange with
        | none => simp [getSpotifyAccessToken, readTokenFromDisk] at hres
        | some pr =>
            obtain ⟨tok0, ei0⟩ := pr
            simp [getSpotifyAccessToken, readTokenFromDisk] at hres
            exact .inl ⟨ei0, by rw [hres]⟩
    | corrupt =>
        cases exchange with
        | none => simp [getSpotifyAccessToken, readTokenFromDisk] at hres
        | some pr =>
            obtain ⟨tok0, ei0⟩ := pr
            simp [getSpotifyAccessToken, readTokenFromDisk] at hres
            exact .inl ⟨ei0, by rw [hres]⟩
    | stored t e =>
        by_cases hcond : e ≠ 0 ∧ now < e
        · by_cases ht : t = ""
          · subst ht
            cases exchange with
            | none => simp [getSpotifyAccessToken, readTokenFromDisk, hcond] at hres
            | some pr =>
                obtain ⟨tok0, ei0⟩ := pr
                simp [getSpotifyAccessToken, readTokenFromDisk, hcond] at hres
                exact .inl ⟨ei0, by rw [hres]⟩
          · have : getSpotifyAccessToken now (.stored t e) true exchange
                = ⟨.ok t, .stored t e, 0⟩ := by
              simp [getSpotifyAccessToken, readTokenFromDisk, hcond, ht]
            rw [this] at hres
            simp at hres
            exact .inr ⟨e, by rw [hres], hcond.2⟩
        · cases exchange with
          | none => simp [getSpotifyAccessToken, readTokenFromDisk, hcond] at hres
          | some pr =>
              obtain ⟨tok0, ei0⟩ := pr
              simp [getSpotifyAccessToken, readTokenFromDisk, hcond] at hres
              exact .inl ⟨ei0, by rw [hres]⟩

/-- Witness for C4: a snapshot with a still-valid token is served from
disk with zero exchanges; an expired snapshot leads to one exchange
and the fresh token persisted with its new expiry. -/
theorem getSpotifyAccessToken_spec_witness :
    getSpotifyAccessToken 100 (.stored "tok" 200) true none
      = ⟨.ok "tok", .stored "tok" 200, 0⟩ ∧
    getSpotifyAccessToken 300 (.stored "tok" 200) true (some ("fresh", 3600))
      = ⟨.ok "fresh", .stored "fresh" (300 + 3600 * 1000), 1⟩ :=
  ⟨(getSpotifyAccessToken_spec 100 (.stored "tok" 200) none (by decide)).1
      "tok" 200 rfl (by decide) (by decide),
   ((getSpotifyAccessToken_spec 300 (.stored "tok" 200) (some ("fresh", 3600))
      (by decide)).2.1 (by intro t e he ht hlt; cases he; omega)).2
      "fresh" 3600 rfl⟩

/-- C10: whenever the refresh fails — the token call rejects, the
provider fetch rejects, or the fetch yields an empty list — the
`catch` in `refreshCache` returns the previously persisted artist list
(stale or not) or `[]` when none exists, the cache file is unchanged,
and a `GET /api/artists` from a session without a provider token whose
cache is invalid answers a successful `global` response carrying that
stale-or-empty list instead of an error. -/
theorem refreshCache_failure_degrades (f : CacheFile) (now ttl : Int)
    (tokenRes : Except String String) (globalFetch : Option (List Artist))
    (s : Session)
    (hfail : (∃ e, tokenRes = .error e) ∨ globalFetch = none ∨ globalFetch = some [])
    (hanon : jsTruthyStr s.spotifyToken = false)
    (hstale : isCacheValid now ttl f = false) :
    refreshCache f now tokenRes globalFetch = ((getCachedArtists f).getD [], f) ∧
    artistsRoute s f now ttl none tokenRes globalFetch
      = (s, f, .ok ((getCachedArtists f).getD [])
          ((getCachedArtists f).getD []).length "global" false) := by
  have h1 : refreshCache f now tokenRes globalFetch = ((getCachedArtists f).getD [], f) := by
    rcases hfail with ⟨e, he⟩ | hn | hs
    · simp [refreshCache, he]
    · cases tokenRes <;> simp [refreshCache, hn]
    · cases tokenRes <;> simp [refreshCache, hs]
  refine ⟨h1, ?_⟩
  simp [artistsRoute, hanon, globalArtists, hstale, h1]

/-- Witness for C10: a stale one-artist cache (timestamp 1, now 100,
TTL 10) with a failing token call: the stale list is served with a
successful global response and the file is untouched. -/
theorem refreshCache_failure_degrades_witness :
    artistsRoute emptySession (.stored (some [sampleArtist]) (some 1)) 100 10
        none (.error "Failed to get token") none
      = (emptySession, .stored (some [sampleArtist]) (some 1),
         .ok [sampleArtist] 1 "global" false) := by
  have h := refreshCache_failure_degrades (.stored (some [sampleArtist]) (some 1))
    100 10 (.error "Failed to get token") none emptySession
    (.inl ⟨"Failed to get token", rfl⟩) rfl (by decide)
  simpa using h.2

end KeepUpMusic
